import Mathlib

/-!
Shallow embedding of the explicit Runge-Kutta tableau engine of
`netket/experimental/ode4jax/_src/ODEBase/tableau.py` and of the
problem normalisation of `.../ODEBase/problem.py`, with theorems
checking the natural-language specification against the code.

Numeric arrays are modelled over the exact rationals `ℚ`: every
tabulated coefficient of the source is a ratio of small integers, and
the operations the claims are about (matrix-vector products, weighted
sums, elementwise comparisons) are exact on those values.
-/

/-- A state vector, modelling a one-dimensional `jnp` array of floats. -/
abbrev Vec := List ℚ

/-- Elementwise sum of two equally long vectors (`x + y` on arrays). -/
def vadd (x y : Vec) : Vec := List.zipWith (· + ·) x y

/-- Scalar times vector (`s * x` on arrays). -/
def smul (s : ℚ) (x : Vec) : Vec := x.map (fun a => s * a)

/-- The zero vector of length `n`. -/
def zeroVec (n : Nat) : Vec := List.replicate n 0

/-- `row @ k` for a coefficient row `row` of length `stages` and a stage
collection `k` of `stages` vectors of length `n`: the weighted sum
`Σ_j row[j] * k[j]`. -/
def rowDotKs (n : Nat) (row : List ℚ) (k : List Vec) : Vec :=
  (List.zipWith smul row k).foldl vadd (zeroVec n)

/-- Sum of the entries of a vector. -/
def sumVec (x : Vec) : ℚ := x.foldl (· + ·) 0

/-- The weight array `b` of a tableau: the source stores either a
one-dimensional weight vector (`ndim == 1`) or a two-dimensional stack
of weight rows (`ndim == 2`). -/
inductive BArr where
  | vec (v : List ℚ)
  | mat (rows : List (List ℚ))
deriving DecidableEq, Repr

/-- `ndim` of the stored `b` array. -/
def BArr.ndim : BArr → Nat
  | .vec _ => 1
  | .mat _ => 2

/-- Number of weight rows that `b` carries (a 1-d `b` is a single row). -/
def BArr.nrows : BArr → Nat
  | .vec _ => 1
  | .mat rows => rows.length

/-- The weight rows of `b` as a list of rows. -/
def BArr.rows : BArr → List (List ℚ)
  | .vec v => [v]
  | .mat rows => rows

/-- The Butcher tableau of an explicit Runge-Kutta scheme, mirroring the
fields of the Python dataclass `TableauRKExplicit`. -/
structure TableauRKExplicit where
  name : String
  order : List Nat
  a : List (List ℚ)
  b : BArr
  c : List ℚ
  c_error : Option (List ℚ)

namespace TableauRKExplicit

/-- `jnp.tril(a)`: zero out the entries strictly above the diagonal. -/
def tril (a : List (List ℚ)) : List (List ℚ) :=
  a.enum.map (fun p => p.2.enum.map (fun q => if q.1 ≤ p.1 then q.2 else 0))

/-- `jnp.allclose(a, tril(a))` on exact rationals: elementwise equality
of `a` with its lower-triangular part. -/
def allcloseTril (a : List (List ℚ)) : Bool := a == tril a

/-- The property `is_explicit` as written in the source: its body
evaluates `jnp.allclose(self.a, jnp.tril(self.a))` and discards the
result — the method has no `return` statement, so Python returns
`None`, modelled as `none`. -/
def is_explicit (t : TableauRKExplicit) : Option Bool :=
  let x := allcloseTril t.a
  let _ := x
  none

/-- The property `is_adaptive`: `self.b.ndim == 2`. -/
def is_adaptive (t : TableauRKExplicit) : Bool := t.b.ndim == 2

/-- Errors surfaced by the stepping methods: `RuntimeError` raised
explicitly by `step_with_error` on a non-adaptive tableau; `NameError`
raised because the local name `b` is never bound in `step_with_error`;
`IndexError` raised by indexing a one-dimensional array with two
indices (`self.b[0, :]` in `is_FSAL`). -/
inductive StepErr where
  | runtimeError
  | nameError
  | indexError
deriving DecidableEq, Repr

/-- The property `is_FSAL`: `jnp.all(self.a[-1, :] == self.b[0, :]) and
self.c[-1] == 1`. When `b` is one-dimensional, the expression
`self.b[0, :]` indexes a 1-d array with two indices and raises
`IndexError`; when `b` is two-dimensional it is the first weight row. -/
def is_FSAL (t : TableauRKExplicit) : Except StepErr Bool :=
  match t.b with
  | .vec _ => .error .indexError
  | .mat rows =>
      .ok ((t.a.getLastD [] == rows.headD []) && (t.c.getLastD 0 == 1))

/-- The property `stages`: `len(self.c)`. -/
def stages (t : TableauRKExplicit) : Nat := t.c.length

end TableauRKExplicit

/-- Modelled from the spec: the helper `expand_dim` is imported from
`netket.utils`, whose source is not in the repository snapshot. The
spec only requires a stage-derivative collection with one slot per
stage into which each stage's derivative is accumulated in increasing
order; slots are initialised by replicating the current state (for a
strictly lower-triangular `a` the initial content is multiplied by
zero and never observed). -/
def expand_dim (y : Vec) (n : Nat) : List Vec := List.replicate n y

namespace TableauRKExplicit

/-- The method `_get_ks`: stage times are `t + c * dt`; for each stage
`l` in increasing order, `dy_l = a[l,:] @ k`, then
`k_l = f(times[l], y_t + dt * dy_l, stage=l)` is stored at slot `l`. -/
def _get_ks (t : TableauRKExplicit) (f : ℚ → Vec → Nat → Vec)
    (tt dt : ℚ) (y_t : Vec) : List Vec :=
  (List.range t.stages).foldl
    (fun k l =>
      let dy_l := rowDotKs y_t.length (t.a.getD l []) k
      let k_l := f (tt + t.c.getD l 0 * dt) (vadd y_t (smul dt dy_l)) l
      k.set l k_l)
    (expand_dim y_t t.stages)

end TableauRKExplicit

/-- The mutable integrator object as seen by the stepping methods: the
fields read (`f`, `t`, `dt`, `u`) and the stage cache `k` that `step`
writes. -/
structure Integrator where
  f : ℚ → Vec → Nat → Vec
  t : ℚ
  dt : ℚ
  u : Vec
  k : List Vec

namespace TableauRKExplicit

/-- The cache assignment `integrator.k = k.at[jnp.array([1, -1])].get()`:
`jnp` gathers clamp out-of-bound indices, and a negative index wraps,
so the cached pair is `(k[min 1 (len-1)], k[len-1])`. -/
def cachePick (k : List Vec) : List Vec :=
  [k.getD (min 1 (k.length - 1)) [], k.getD (k.length - 1) []]

/-- The method `step`: computes the stage derivatives, selects
`b = self.b[0] if self.b.ndim == 2 else self.b`, returns
`y_t + dt * b @ k`, and writes `k.at[[1, -1]].get()` into the
integrator's stage cache. Returned as (new state, mutated integrator). -/
def step (tab : TableauRKExplicit) (integrator : Integrator) :
    Vec × Integrator :=
  let f := integrator.f
  let t := integrator.t
  let dt := integrator.dt
  let y_t := integrator.u
  let k := tab._get_ks f t dt y_t
  let b := match tab.b with
    | .mat rows => rows.headD []
    | .vec v => v
  let y_tp1 := vadd y_t (smul dt (rowDotKs y_t.length b k))
  (y_tp1, { integrator with k := cachePick k })

/-- The method `step_with_error`: raises `RuntimeError` when the tableau
is not adaptive, before any stage evaluation. Otherwise it computes the
stage derivatives and then evaluates `y_t + dt * b[0] @ k`, where the
local name `b` is never bound in this method's body (unlike `step`,
which binds it), so Python raises `NameError` before the cache
assignment. The second component is the integrator after the call:
every exit of this method leaves it untouched. -/
def step_with_error (tab : TableauRKExplicit) (integrator : Integrator) :
    Except StepErr (Vec × Vec) × Integrator :=
  if tab.is_adaptive then
    let k := tab._get_ks integrator.f integrator.t integrator.dt integrator.u
    let _ := k
    (.error .nameError, integrator)
  else
    (.error .runtimeError, integrator)

end TableauRKExplicit

/-- Registered tableau `bt_feuler` (forward Euler): note that the source
stores `b = jnp.ones((1, 1))`, a two-dimensional 1×1 array. -/
def bt_feuler : TableauRKExplicit :=
  { name := "feuler", order := [1],
    a := [[0]],
    b := .mat [[1]],
    c := [0],
    c_error := none }

/-- Registered tableau `bt_midpoint`. -/
def bt_midpoint : TableauRKExplicit :=
  { name := "midpoint", order := [2],
    a := [[0, 0], [1/2, 0]],
    b := .vec [0, 1],
    c := [0, 1/2],
    c_error := none }

/-- Registered tableau `bt_heun`. -/
def bt_heun : TableauRKExplicit :=
  { name := "heun", order := [2],
    a := [[0, 0], [1, 0]],
    b := .vec [1/2, 1/2],
    c := [0, 1],
    c_error := none }

/-- Registered tableau `bt_rk4` (classical 4th order): the source
tabulates the last row of `a` as `[0, 0, 1, 1]`. -/
def bt_rk4 : TableauRKExplicit :=
  { name := "rk4", order := [4],
    a := [[0, 0, 0, 0],
          [1/2, 0, 0, 0],
          [0, 1/2, 0, 0],
          [0, 0, 1, 1]],
    b := .vec [1/6, 1/3, 1/3, 1/6],
    c := [0, 1/2, 1/2, 1],
    c_error := none }

/-- Registered tableau `bt_rk12` (Heun-Euler adaptive pair). -/
def bt_rk12 : TableauRKExplicit :=
  { name := "rk21", order := [2, 1],
    a := [[0, 0], [1, 0]],
    b := .mat [[1/2, 1/2], [1, 0]],
    c := [0, 1],
    c_error := none }

/-- Registered tableau `bt_rk23` (Bogacki-Shampine). -/
def bt_rk23 : TableauRKExplicit :=
  { name := "rk23", order := [2, 3],
    a := [[0, 0, 0, 0],
          [1/2, 0, 0, 0],
          [0, 3/4, 0, 0],
          [2/9, 1/3, 4/9, 0]],
    b := .mat [[7/24, 1/4, 1/3, 1/8],
               [2/9, 1/3, 4/9, 0]],
    c := [0, 1/2, 3/4, 1],
    c_error := none }

/-- Registered tableau `bt_rk4_fehlberg` (Runge-Kutta-Fehlberg 4(5)). -/
def bt_rk4_fehlberg : TableauRKExplicit :=
  { name := "fehlberg", order := [4, 5],
    a := [[0, 0, 0, 0, 0, 0],
          [1/4, 0, 0, 0, 0, 0],
          [3/32, 9/32, 0, 0, 0, 0],
          [1932/2197, -7200/2197, 7296/2197, 0, 0, 0],
          [439/216, -8, 3680/513, -845/4104, 0, 0],
          [-8/27, 2, -3544/2565, 1859/4104, 11/40, 0]],
    b := .mat [[25/216, 0, 1408/2565, 2197/4104, -1/5, 0],
               [16/135, 0, 6656/12825, 28561/56430, -9/50, 2/55]],
    c := [0, 1/4, 3/8, 12/13, 1, 1/2],
    c_error := none }

/-- Registered tableau `bt_rk4_dopri` (Dormand-Prince 5(4)). -/
def bt_rk4_dopri : TableauRKExplicit :=
  { name := "dopri", order := [5, 4],
    a := [[0, 0, 0, 0, 0, 0, 0],
          [1/5, 0, 0, 0, 0, 0, 0],
          [3/40, 9/40, 0, 0, 0, 0, 0],
          [44/45, -56/15, 32/9, 0, 0, 0, 0],
          [19372/6561, -25360/2187, 64448/6561, -212/729, 0, 0, 0],
          [9017/3168, -355/33, 46732/5247, 49/176, -5103/18656, 0, 0],
          [35/384, 0, 500/1113, 125/192, -2187/6784, 11/84, 0]],
    b := .mat [[35/384, 0, 500/1113, 125/192, -2187/6784, 11/84, 0],
               [5179/57600, 0, 7571/16695, 393/640, -92097/339200, 187/2100, 1/40]],
    c := [0, 1/5, 3/10, 4/5, 8/9, 1, 1],
    c_error := none }

/-- Strict lower-triangularity of a coefficient matrix: `a[i][j] = 0`
for every `j >= i` (the spec's invariant for an explicit method). -/
def strictlyLowerTriangular (a : List (List ℚ)) : Bool :=
  a.enum.all (fun p => p.2.enum.all (fun q => decide (q.1 < p.1) || q.2 == 0))

/-- The `__pre_init__` input/result value for `u0`: `jnp.asarray` of a
bare scalar yields a zero-dimensional array, of a vector a
one-dimensional array. -/
inductive PyVal where
  | scalar (q : ℚ)
  | arr (xs : List ℚ)
deriving DecidableEq, Repr

/-- Number of array dimensions of a coerced value. -/
def PyVal.ndim : PyVal → Nat
  | .scalar _ => 0
  | .arr _ => 1

namespace ODEProblem

/-- The method `ODEProblem.__pre_init__` (the right-hand side `fun` is
stored untouched and omitted): raises
`ValueError("tspan must be a tuple of length 2")` when `len(tspan) != 2`;
otherwise coerces the two span entries and `u0` with `jnp.asarray`
(identity on already numeric rationals) and promotes a zero-dimensional
`u0` to shape `(1,)` via `reshape(1)`. -/
def preInit (tspan : List ℚ) (u0 : PyVal) : Except String (List ℚ × PyVal) :=
  if tspan.length ≠ 2 then
    .error "tspan must be a tuple of length 2"
  else
    let u0' := match u0 with
      | .scalar q => PyVal.arr [q]
      | .arr xs => PyVal.arr xs
    .ok ([tspan.getD 0 0, tspan.getD 1 0], u0')

end ODEProblem

/-- Whether an `Except` computation returned normally. -/
def exceptHasValue : Except ε α → Bool
  | .ok _ => true
  | .error _ => false

/-- A concrete integrator state: the scalar ODE `du/dt = u` (as a
one-element vector), at `t = 0` with `dt = 1`, `u = [1]` and an empty
stage cache. -/
def sampleIntegrator : Integrator :=
  { f := fun _ y _ => y, t := 0, dt := 1, u := [1], k := [] }

/-- C1: the spec claims that on an adaptive tableau `step_with_error`
returns the pair `(y + dt * (b[0] @ k), dt * ((b[0] - b[1]) @ k))`. On
the code this fails: the method body refers to a local name `b` that is
never bound (only `step` binds it), so on the adaptive tableau
`bt_rk12`, with `f(t, y) = y`, `t = 0`, `dt = 1`, `y = [1]`, the call
raises `NameError` and returns no pair; the integrator is untouched. -/
theorem C1_step_with_error_raises_name_error :
    bt_rk12.is_adaptive = true ∧
    bt_rk12.step_with_error sampleIntegrator =
      (Except.error TableauRKExplicit.StepErr.nameError, sampleIntegrator) :=
  ⟨rfl, rfl⟩

/-- C2: the spec claims every registered tableau has a strictly
lower-triangular `a` (`a[i][j] = 0` for `j >= i`). Seven of the eight
registered tableaus satisfy this, but `bt_rk4` does not: the source
tabulates its last row as `[0, 0, 1, 1]`, so `a[3][3] = 1`. -/
theorem C2_registry_strict_triangularity_fails_at_rk4 :
    strictlyLowerTriangular bt_rk4.a = false ∧
    (bt_rk4.a.getD 3 []).getD 3 0 = 1 ∧
    ([bt_feuler, bt_midpoint, bt_heun, bt_rk12, bt_rk23,
      bt_rk4_fehlberg, bt_rk4_dopri].all
        (fun t => strictlyLowerTriangular t.a)) = true :=
  ⟨by decide, rfl, by decide⟩

/-- C3: the spec claims `is_explicit` returns a boolean that is true iff
`a` is strictly lower-triangular. On the code this fails: the property
body has no `return` statement, so it yields `None` for every tableau —
in particular for `bt_feuler`, whose `a` is strictly lower-triangular
and for which the claim demands `True`. -/
theorem C3_is_explicit_always_none :
    (∀ t : TableauRKExplicit, t.is_explicit = none) ∧
    strictlyLowerTriangular bt_feuler.a = true ∧
    bt_feuler.is_explicit = none :=
  ⟨fun _ => rfl, by decide, rfl⟩

/-- C4: the spec claims `is_adaptive` is true iff `b` carries two weight
rows, and in particular is false for the fixed-step `bt_feuler`. On the
code this fails: `bt_feuler` stores `b = jnp.ones((1, 1))`, a
two-dimensional array with a single row, so `is_adaptive`
(`b.ndim == 2`) returns `True` for it. -/
theorem C4_feuler_is_adaptive_despite_single_row :
    bt_feuler.is_adaptive = true ∧ bt_feuler.b.nrows = 1 :=
  ⟨rfl, rfl⟩

/-- C5: the spec claims `is_FSAL` returns `True` when
`a[-1,:] == b[0,:]` and `c[-1] == 1` (as for `bt_rk4_dopri`) and
`False` for non-FSAL fixed-order tableaus such as `bt_rk4`. The second
half fails on the code: `bt_rk4` stores `b` one-dimensionally and the
expression `self.b[0, :]` indexes a 1-d array with two indices, raising
`IndexError` instead of returning `False`. The `bt_rk4_dopri` half does
hold. -/
theorem C5_is_FSAL_crashes_on_rk4 :
    bt_rk4.is_FSAL = Except.error TableauRKExplicit.StepErr.indexError ∧
    bt_rk4_dopri.is_FSAL = Except.ok true := by
  refine ⟨rfl, ?_⟩
  norm_num [TableauRKExplicit.is_FSAL, bt_rk4_dopri, List.getLastD,
    List.headD]

/-- C6: for every tableau with `is_adaptive` false and every integrator
state, `step_with_error` raises `RuntimeError` immediately — before the
stage-derivative computation, which the error branch never reaches —
and leaves the integrator (its `t`, `dt`, `u` and stage cache `k`)
untouched, as the returned post-call integrator is exactly the input. -/
theorem C6_step_with_error_usage_error (tab : TableauRKExplicit)
    (I : Integrator) (h : tab.is_adaptive = false) :
    tab.step_with_error I =
      (Except.error TableauRKExplicit.StepErr.runtimeError, I) := by
  simp [TableauRKExplicit.step_with_error, h]

/-- Witness for C6: `bt_rk4` is non-adaptive and `step_with_error` on a
concrete integrator returns the usage error with the state unchanged. -/
theorem C6_witness :
    bt_rk4.is_adaptive = false ∧
    bt_rk4.step_with_error sampleIntegrator =
      (Except.error TableauRKExplicit.StepErr.runtimeError, sampleIntegrator) :=
  ⟨by decide, C6_step_with_error_usage_error bt_rk4 sampleIntegrator (by decide)⟩

/-- C7: the spec claims `step` returns `y + dt * (b @ k)` and caches the
first and last stage derivatives (`k[0]` and `k[stages-1]`). On
`bt_midpoint` with `f(t, y) = y`, `t = 0`, `dt = 1`, `u = [1]` the
stage derivatives are `k = [[1], [3/2]]` and the new state is the
claimed `[5/2]`, but the cache written is `k.at[[1, -1]].get()
= [[3/2], [3/2]]` — the second and last stages — instead of the first
and last `[[1], [3/2]]`. -/
theorem C7_step_formula_and_cache :
    bt_midpoint._get_ks sampleIntegrator.f sampleIntegrator.t
      sampleIntegrator.dt sampleIntegrator.u = [[1], [3/2]] ∧
    (bt_midpoint.step sampleIntegrator).1 = [5/2] ∧
    (bt_midpoint.step sampleIntegrator).2.k = [[3/2], [3/2]] := by
  norm_num [TableauRKExplicit.step, TableauRKExplicit._get_ks,
    TableauRKExplicit.stages, TableauRKExplicit.cachePick, expand_dim,
    rowDotKs, vadd, smul, zeroVec, bt_midpoint, sampleIntegrator,
    List.range_succ, List.replicate, List.set, List.getD, List.get?,
    Option.getD]

/-- C8: `ODEProblem.__pre_init__` returns normally iff `tspan` has
exactly two elements (raising the `ValueError` otherwise), and on
success the stored `u0` has at least one dimension: a zero-dimensional
scalar is promoted to a one-element vector. -/
theorem C8_preinit_validation (tspan : List ℚ) (u0 : PyVal) :
    exceptHasValue (ODEProblem.preInit tspan u0) = (tspan.length == 2) ∧
    ∀ r, ODEProblem.preInit tspan u0 = Except.ok r → 1 ≤ r.2.ndim := by
  constructor
  · by_cases h : tspan.length = 2 <;>
      cases u0 <;> simp [ODEProblem.preInit, h, exceptHasValue]
  · intro r hr
    by_cases h : tspan.length = 2
    · cases u0 <;> simp [ODEProblem.preInit, h] at hr <;>
        (rw [← hr]; simp [PyVal.ndim])
    · simp [ODEProblem.preInit, h] at hr

/-- Witness for C8: constructing with `tspan = [0, 1]` and scalar
`u0 = 1` succeeds and stores the one-dimensional `[1]`. -/
theorem C8_witness :
    exceptHasValue (ODEProblem.preInit [0, 1] (PyVal.scalar 1)) =
      (([(0:ℚ), 1].length) == 2) ∧
    1 ≤ (PyVal.arr [1]).ndim :=
  ⟨(C8_preinit_validation [0, 1] (PyVal.scalar 1)).1,
   (C8_preinit_validation [0, 1] (PyVal.scalar 1)).2
     ([0, 1], PyVal.arr [1]) rfl⟩

/-- C9: for every registered tableau, every weight row of `b` sums to
exactly 1 under the exact rational reading of the tabulated
coefficients, and the first stage time offset `c[0]` equals 0. -/
theorem C9_weight_rows_sum_to_one :
    bt_feuler.b.rows.map sumVec = [1] ∧ bt_feuler.c.getD 0 1 = 0 ∧
    bt_midpoint.b.rows.map sumVec = [1] ∧ bt_midpoint.c.getD 0 1 = 0 ∧
    bt_heun.b.rows.map sumVec = [1] ∧ bt_heun.c.getD 0 1 = 0 ∧
    bt_rk4.b.rows.map sumVec = [1] ∧ bt_rk4.c.getD 0 1 = 0 ∧
    bt_rk12.b.rows.map sumVec = [1, 1] ∧ bt_rk12.c.getD 0 1 = 0 ∧
    bt_rk23.b.rows.map sumVec = [1, 1] ∧ bt_rk23.c.getD 0 1 = 0 ∧
    bt_rk4_fehlberg.b.rows.map sumVec = [1, 1] ∧
    bt_rk4_fehlberg.c.getD 0 1 = 0 ∧
    bt_rk4_dopri.b.rows.map sumVec = [1, 1] ∧
    bt_rk4_dopri.c.getD 0 1 = 0 := by
  norm_num [bt_feuler, bt_midpoint, bt_heun, bt_rk4, bt_rk12, bt_rk23,
    bt_rk4_fehlberg, bt_rk4_dopri, BArr.rows, sumVec]

/-- C10: for every tableau and integrator, a normally returning `step`
writes only the stage cache `k` (which becomes the gathered pair of
stage derivatives): `f`, `t`, `dt` and `u` are unchanged. A call to
`step_with_error` never returns normally on this code and leaves the
integrator entirely unchanged, so advancing time and accepting a step
are the driver's responsibility. -/
theorem C10_step_writes_only_k (tab : TableauRKExplicit) (I : Integrator) :
    (tab.step I).2.f = I.f ∧ (tab.step I).2.t = I.t ∧
    (tab.step I).2.dt = I.dt ∧ (tab.step I).2.u = I.u ∧
    (tab.step I).2.k =
      TableauRKExplicit.cachePick (tab._get_ks I.f I.t I.dt I.u) ∧
    (tab.step_with_error I).2 = I ∧
    exceptHasValue (tab.step_with_error I).1 = false := by
  refine ⟨rfl, rfl, rfl, rfl, rfl, ?_, ?_⟩ <;>
    cases h : tab.is_adaptive <;>
      simp [TableauRKExplicit.step_with_error, h, exceptHasValue]
